import Mathlib

/-!
Verification development for the aTrustLogin-ARP repository (src/src/main.py).

The script automates login against a web portal: it classifies the login
state from the browser's current URL and page source (`is_logged`), performs
the credential-entry flow (`login`), persists and restores session artifacts
(cookies and local storage, `update_storage` / `load_storage` via pickle),
initializes the browser session (`init`), and runs a resilient keepalive
loop (`main`).  The definitions below are a shallow embedding of that code:
pure string logic is translated directly; the stateful parts become explicit
state passing with Python exceptions modelled as explicit error values and
the side effects recorded in action traces.
-/

/-- Boolean test that the first list is an initial segment of the second,
character by character (models Python `str.startswith` on decomposed
strings). -/
def leadsWith : List Char → List Char → Bool
  | [], _ => true
  | _ :: _, [] => false
  | a :: as, b :: bs => a == b && leadsWith as bs

/-- Boolean substring test on character lists: `needle` occurs contiguously
inside the second argument (models Python `in` on strings). -/
def hasSub (needle : List Char) : List Char → Bool
  | [] => leadsWith needle []
  | c :: t => leadsWith needle (c :: t) || hasSub needle t

/-- Python `needle in hay` for strings: substring containment. -/
def strContains (hay needle : String) : Bool :=
  hasSub needle.toList hay.toList

/-- Python `s.startswith(p)`. -/
def strStarts (s p : String) : Bool :=
  leadsWith p.toList s.toList

/-- Characters after the first `#`, or `[]` when there is none. -/
def fragChars : List Char → List Char
  | [] => []
  | c :: t => if c == '#' then t else fragChars t

/-- Fragment component of a URL as computed by `urllib.parse.urlparse`:
everything after the first `#`, the empty string when no `#` occurs. -/
def fragmentOf (url : String) : String :=
  String.mk (fragChars url.toList)

/-- Keyword list `self.must_be_logged_keywords` from `ATrustLogin.__init__`. -/
def must_be_logged_keywords : List String :=
  ["app_center", "user_info", "app_apply", "device_manage"]

/-- Keyword list `self.must_not_logged_keywords` from `ATrustLogin.__init__`. -/
def must_not_logged_keywords : List String :=
  ["login", "captcha"]

/-- Embedding of `ATrustLogin.is_logged`, a pure function of the browser's
current URL and page source.  Returns `none` for Python `None` (not sure),
`some true` for logged in, `some false` for not logged in.  The source:
if the URL starts with `about:` return `None`; if any must-be-logged keyword
occurs in the URL fragment return `True`; if any must-not-logged keyword
occurs in the fragment return `False`; otherwise return whether the page
source contains `工作台` and does not contain `本地密码`. -/
def is_logged (current_url page_source : String) : Option Bool :=
  if strStarts current_url "about:" then none
  else if must_be_logged_keywords.any (fun k => strContains (fragmentOf current_url) k) then
    some true
  else if must_not_logged_keywords.any (fun k => strContains (fragmentOf current_url) k) then
    some false
  else
    some (strContains page_source "工作台" && !strContains page_source "本地密码")

/-- The spec's tri-state login classification. -/
inductive LoginState where
  | LoggedIn
  | LoggedOut
  | Indeterminate
deriving DecidableEq

/-- The spec's `Classify(currentURL, pageContent)`, realized in the source by
`is_logged`: `None` is Indeterminate, `True` is LoggedIn, `False` is
LoggedOut. -/
def Classify (url content : String) : LoginState :=
  match is_logged url content with
  | none => LoginState.Indeterminate
  | some true => LoginState.LoggedIn
  | some false => LoginState.LoggedOut

/-! ### Session artifacts and the storage codec

`update_storage` pickles an `ATrustLoginStorage(cookies, local_storage)`
value; `load_storage` unpickles it and replays it into the browser.  The
byte-level serialization is delegated to Python's `pickle` module, which is
standard-library code outside this repository. -/

/-- Cookie value object with the attribute fields the spec names. -/
structure Cookie where
  name : String
  value : String
  domain : String
  path : String
  expiry : Nat
  secure : Bool
  httpOnly : Bool
  sameSite : String
deriving DecidableEq

/-- Embedding of `ATrustLoginStorage`: a cookie sequence and a string-keyed
local-storage mapping (listed as key/value pairs). -/
structure SessionArtifacts where
  cookies : List Cookie
  localStorage : List (String × String)
deriving DecidableEq

/-- Serialized token, the atom of the modelled byte format. -/
inductive Tok where
  | s (v : String)
  | n (v : Nat)
  | b (v : Bool)
deriving DecidableEq

/-- Modelled from the spec: the StorageCodec's per-cookie encoding (the
actual serialization is Python's `pickle`, not part of src/); every
attribute field is written out in a fixed order. -/
def encCookie (c : Cookie) : List Tok :=
  [Tok.s c.name, Tok.s c.value, Tok.s c.domain, Tok.s c.path,
   Tok.n c.expiry, Tok.b c.secure, Tok.b c.httpOnly, Tok.s c.sameSite]

/-- Modelled from the spec: per-cookie decoding, the inverse direction of
`encCookie`; returns the cookie and the remaining tokens, `none` on a
shape mismatch. -/
def decCookie : List Tok → Option (Cookie × List Tok)
  | Tok.s nm :: Tok.s v :: Tok.s d :: Tok.s p :: Tok.n e ::
      Tok.b sec :: Tok.b ho :: Tok.s ss :: rest =>
    some (⟨nm, v, d, p, e, sec, ho, ss⟩, rest)
  | _ => none

/-- Modelled from the spec: encoding of one local-storage entry. -/
def encEntry (kv : String × String) : List Tok :=
  [Tok.s kv.1, Tok.s kv.2]

/-- Modelled from the spec: decoding of one local-storage entry. -/
def decEntry : List Tok → Option ((String × String) × List Tok)
  | Tok.s k :: Tok.s v :: rest => some ((k, v), rest)
  | _ => none

/-- Concatenated encoding of a list of items. -/
def encListWith {α : Type} (enc : α → List Tok) : List α → List Tok
  | [] => []
  | a :: t => enc a ++ encListWith enc t

/-- Decode a known number of items in sequence, threading the remaining
tokens; `none` as soon as one item fails to decode. -/
def decListWith {α : Type} (dec : List Tok → Option (α × List Tok)) :
    Nat → List Tok → Option (List α × List Tok)
  | 0, rest => some ([], rest)
  | nc + 1, toks =>
    match dec toks with
    | some (a, rest) =>
      match decListWith dec nc rest with
      | some (l, rest2) => some (a :: l, rest2)
      | none => none
    | none => none

/-- Modelled from the spec: full artifact encoding — a length-prefixed
cookie block followed by a length-prefixed local-storage block (the spec
leaves the format an implementation choice; src/ delegates it to pickle). -/
def encodeArtifacts (a : SessionArtifacts) : List Tok :=
  (Tok.n a.cookies.length :: encListWith encCookie a.cookies)
    ++ (Tok.n a.localStorage.length :: encListWith encEntry a.localStorage)

/-- Modelled from the spec: full artifact decoding; fails on any shape
mismatch or trailing garbage, modelling `pickle.UnpicklingError`. -/
def decodeArtifacts (toks : List Tok) : Option SessionArtifacts :=
  match toks with
  | Tok.n nc :: rest =>
    match decListWith decCookie nc rest with
    | some (cs, Tok.n ne :: rest2) =>
      match decListWith decEntry ne rest2 with
      | some (es, []) => some ⟨cs, es⟩
      | _ => none
    | _ => none
  | _ => none

/-- Contents of the single artifact file path
(`data_dir/ATrustLoginStorage.pkl`): absent, or present with raw tokens. -/
inductive FileContent where
  | absent
  | bytes (t : List Tok)
deriving DecidableEq

/-- Errors of the storage codec as the spec's taxonomy names them. -/
inductive LoadErr where
  | notFound
  | decodeError
deriving DecidableEq

/-- The StorageCodec `Save` operation: full overwrite of the artifact file
with the serialized artifacts (how `update_storage` writes the pickle). -/
def Save (a : SessionArtifacts) : FileContent :=
  FileContent.bytes (encodeArtifacts a)

/-- The StorageCodec `Load` operation: `notFound` when the path is absent,
`decodeError` when the bytes do not decode. -/
def Load : FileContent → Except LoadErr SessionArtifacts
  | FileContent.absent => Except.error LoadErr.notFound
  | FileContent.bytes t =>
    match decodeArtifacts t with
    | some a => Except.ok a
    | none => Except.error LoadErr.decodeError

/-! ### Browser session state and `load_storage` / `init`

Python exceptions are modelled as explicit values; a function that can raise
returns `Except PyExc _` or pairs its result with an `Option PyExc`. -/

/-- Python exception kinds relevant to the embedded code.  `fileNotFound`
is `FileNotFoundError` (the only class `load_storage` catches);
`unpicklingError` is `pickle.UnpicklingError` on corrupt data;
`timeoutError` and `webDriverError` stand for selenium waits and driver
calls failing. -/
inductive PyExc where
  | fileNotFound
  | unpicklingError
  | timeoutError
  | webDriverError
deriving DecidableEq

/-- Cookie jar and local storage of the live browser session (the parts of
driver state that `load_storage` mutates). -/
structure BrowserStore where
  cookies : List Cookie
  localStorage : List (String × String)
deriving DecidableEq

/-- Selenium `driver.delete_cookie(name)`: drop any cookie of that name. -/
def delete_cookie (br : BrowserStore) (nm : String) : BrowserStore :=
  { br with cookies := br.cookies.filter (fun c => !(c.name == nm)) }

/-- Selenium `driver.add_cookie(c)`: append the cookie. -/
def add_cookie (br : BrowserStore) (c : Cookie) : BrowserStore :=
  { br with cookies := br.cookies ++ [c] }

/-- JavaScript `window.localStorage.setItem(k, v)`: overwrite the key. -/
def set_local (br : BrowserStore) (k v : String) : BrowserStore :=
  { br with localStorage := br.localStorage.filter (fun kv => !(kv.1 == k)) ++ [(k, v)] }

/-- Replay loaded artifacts into the browser as `load_storage` does: each
cookie via delete-then-add, each local-storage entry via `setItem`. -/
def replay (a : SessionArtifacts) (br : BrowserStore) : BrowserStore :=
  let br1 := a.cookies.foldl (fun b c => add_cookie (delete_cookie b c.name) c) br
  a.localStorage.foldl (fun b kv => set_local b kv.1 kv.2) br1

/-- Body of `ATrustLogin.load_storage` before its `except` clause: if the
pickle file exists, unpickle it (corrupt data raises
`pickle.UnpicklingError`) and replay it into the browser; if the
`os.path.exists` check fails the body does nothing. -/
def load_storage_body (file : FileContent) (br : BrowserStore) :
    Except PyExc BrowserStore :=
  match file with
  | FileContent.absent => Except.ok br
  | FileContent.bytes t =>
    match decodeArtifacts t with
    | some a => Except.ok (replay a br)
    | none => Except.error PyExc.unpicklingError

/-- Embedding of `ATrustLogin.load_storage`: the body wrapped in
`try ... except FileNotFoundError`, which logs and swallows only that one
exception class; every other exception propagates. -/
def load_storage (file : FileContent) (br : BrowserStore) :
    Except PyExc BrowserStore :=
  match load_storage_body file br with
  | Except.error PyExc.fileNotFound => Except.ok br
  | r => r

/-- The pickle write of `ATrustLogin.update_storage`: capture the live
cookies and local storage and fully overwrite the artifact file. -/
def update_storage (br : BrowserStore) : FileContent :=
  Save ⟨br.cookies, br.localStorage⟩

/-- Mutable session-manager state: the `self.initialized` flag and the
browser store. -/
structure SessionState where
  initialized : Bool
  browser : BrowserStore
deriving DecidableEq

/-- Environment for one run of `init`: whether `open_portal` (navigation)
or `wait_login_page` (readiness wait) raises, and the artifact file
contents read by `load_storage`.  `delay_loading` is `time.sleep` and
cannot fail. -/
structure InitEnv where
  openPortalErr : Option PyExc
  waitReadyErr : Option PyExc
  file : FileContent
deriving DecidableEq

/-- Actions `init` performs, in order, for the trace. -/
inductive IAct where
  | openPortal
  | waitReady
  | delayLoading
  | loadStorage
deriving DecidableEq

/-- Embedding of `ATrustLogin.init`: when not yet initialized, run
`open_portal`, `wait_login_page`, `delay_loading`, `load_storage`, and only
then set `initialized` to `True`.  Returns the resulting state, the
propagated exception if a step raised (the Python state is unchanged up to
the fields modelled here), and the trace of steps reached. -/
def init (env : InitEnv) (s : SessionState) :
    SessionState × Option PyExc × List IAct :=
  if s.initialized then (s, none, [])
  else
    match env.openPortalErr with
    | some e => (s, some e, [IAct.openPortal])
    | none =>
      match env.waitReadyErr with
      | some e => (s, some e, [IAct.openPortal, IAct.waitReady])
      | none =>
        match load_storage env.file s.browser with
        | Except.error e =>
          (s, some e,
           [IAct.openPortal, IAct.waitReady, IAct.delayLoading, IAct.loadStorage])
        | Except.ok br =>
          (⟨true, br⟩, none,
           [IAct.openPortal, IAct.waitReady, IAct.delayLoading, IAct.loadStorage])

/-! ### The `login` flow -/

/-- Browser signals read by one `is_logged` call. -/
structure BrowserState where
  url : String
  page : String
deriving DecidableEq

/-- Environment for one `login` call on its non-raising path: the browser
state at the first `is_logged` check (after `init`), and the state at the
re-check after credentials were submitted and `delay_loading` passed. -/
structure LoginEnv where
  pre : BrowserState
  post : BrowserState
deriving DecidableEq

/-- Actions of the login flow, for the trace. -/
inductive LAct where
  | enterCreds
  | clickLogin
  | updateStorage
deriving DecidableEq

/-- Embedding of `ATrustLogin.login`: after `init`, `if self.is_logged():`
short-circuits with `True` — Python truthiness, so both `False` and `None`
fall through — otherwise `enter_credentials` and `click_login_button` run;
after a delay the state is re-checked, and on `True` the storage is updated
and `True` returned, while every other outcome falls off the end of the
function, which in Python returns `None`.  Result: the returned value
(`none` for Python's implicit `None`) and the trace of actions. -/
def login (env : LoginEnv) : Option Bool × List LAct :=
  match is_logged env.pre.url env.pre.page with
  | some true => (some true, [])
  | _ =>
    match is_logged env.post.url env.post.page with
    | some true =>
      (some true, [LAct.enterCreds, LAct.clickLogin, LAct.updateStorage])
    | _ => (none, [LAct.enterCreds, LAct.clickLogin])

/-! ### The keepalive loop of `main`

`main` runs `while True: try: <cycle> except Exception: log; log;
delay_loading()`.  `exit(0)` raises `SystemExit`, which is not a subclass
of `Exception`, so it escapes the handler.  One cycle is modelled as a
function of an environment fixing the outcome of each fallible step. -/

/-- Python control-flow-by-exception: ordinary `Exception` instances versus
`SystemExit` (raised by `exit(code)`), which `except Exception` does not
catch. -/
inductive PyErr where
  | exc (e : PyExc)
  | systemExit (code : Nat)
deriving DecidableEq

/-- Actions one keepalive cycle performs, for the trace. -/
inductive MAct where
  | detect
  | openPortal
  | delayLoading
  | act (a : LAct)
  | close
  | sleepKeepalive
  | logError
deriving DecidableEq

/-- Environment of one keepalive cycle: the outcome of the `is_logged`
check (either an exception or its value), whether the two `open_portal`
navigations and the `login` call raise, and the login environment used when
`login` runs without raising. -/
structure CycleEnv where
  detectErr : Option PyExc
  detect : Option Bool
  navErr : Option PyExc
  loginErr : Option PyExc
  loginEnv : LoginEnv
  navErr2 : Option PyExc
deriving DecidableEq

/-- Step 1 of a cycle body: `if not at.is_logged(): at.open_portal();
at.delay_loading(); if at.login(...) is True: at.delay_loading();
at.delay_loading()`.  Python truthiness makes the guard act whenever
detection is not `True`; the `is True` comparison accepts only `True`. -/
def step1 (env : CycleEnv) : List MAct × Except PyErr Unit :=
  match env.detectErr with
  | some e => ([MAct.detect], Except.error (PyErr.exc e))
  | none =>
    if env.detect = some true then ([MAct.detect], Except.ok ())
    else
      match env.navErr with
      | some e => ([MAct.detect, MAct.openPortal], Except.error (PyErr.exc e))
      | none =>
        match env.loginErr with
        | some e =>
          ([MAct.detect, MAct.openPortal, MAct.delayLoading],
           Except.error (PyErr.exc e))
        | none =>
          match login env.loginEnv with
          | (r, ltr) =>
            let base := [MAct.detect, MAct.openPortal, MAct.delayLoading]
              ++ ltr.map MAct.act
            if r = some true then
              (base ++ [MAct.delayLoading, MAct.delayLoading], Except.ok ())
            else (base, Except.ok ())

/-- Steps 2 and 3 of a cycle body: `if keepalive <= 0: at.close(); exit(0)`
— `exit(0)` raises `SystemExit(0)` — `else: time.sleep(keepalive);
at.open_portal(); at.delay_loading()`. -/
def step23 (env : CycleEnv) (keepalive : Int) : List MAct × Except PyErr Unit :=
  if keepalive ≤ 0 then
    ([MAct.close], Except.error (PyErr.systemExit 0))
  else
    match env.navErr2 with
    | some e =>
      ([MAct.sleepKeepalive, MAct.openPortal], Except.error (PyErr.exc e))
    | none =>
      ([MAct.sleepKeepalive, MAct.openPortal, MAct.delayLoading], Except.ok ())

/-- Whole body of one `while True` iteration in `main`, before the
`except` clause: step 1 then steps 2 and 3, stopping at the first raise. -/
def cycle_body (env : CycleEnv) (keepalive : Int) : List MAct × Except PyErr Unit :=
  match step1 env with
  | (tr, Except.error e) => (tr, Except.error e)
  | (tr, Except.ok _) =>
    match step23 env keepalive with
    | (tr2, r) => (tr ++ tr2, r)

/-- What happens after one iteration: continue looping or exit with a
process status. -/
inductive CycleOutcome where
  | continue_
  | exit_ (code : Nat)
deriving DecidableEq

/-- One full iteration of `main`'s loop including the `except Exception`
handler: an `Exception` is caught, logged (`logger.error` and
`logger.exception`), followed by `delay_loading`, and the loop continues;
`SystemExit` escapes the handler and terminates the process. -/
def cycle (env : CycleEnv) (keepalive : Int) : List MAct × CycleOutcome :=
  match cycle_body env keepalive with
  | (tr, Except.ok _) => (tr, CycleOutcome.continue_)
  | (tr, Except.error (PyErr.systemExit c)) => (tr, CycleOutcome.exit_ c)
  | (tr, Except.error (PyErr.exc _)) =>
    (tr ++ [MAct.logError, MAct.delayLoading], CycleOutcome.continue_)

/-! ### Theorems -/

theorem any_eq_true_of_mem {l : List String} {f : String → Bool} {k : String}
    (hk : k ∈ l) (h : f k = true) : l.any f = true :=
  List.any_eq_true.mpr ⟨k, hk, h⟩

theorem any_eq_false_of_all {l : List String} {f : String → Bool}
    (h : ∀ k ∈ l, f k = false) : l.any f = false := by
  cases hb : l.any f
  · rfl
  · rcases List.any_eq_true.mp hb with ⟨k, hk, hfk⟩
    rw [h k hk] at hfk
    cases hfk

/-- C1: `Classify` follows the ordered, first-match-wins algorithm: a
blank/no-navigation (`about:`) URL yields Indeterminate; otherwise any
must-be-logged keyword in the URL fragment yields LoggedIn regardless of
page content; otherwise any must-not-logged keyword yields LoggedOut
regardless of page content; otherwise the result is LoggedIn iff the page
contains the authenticated-workspace marker and not the local-password
marker, and LoggedOut otherwise. -/
theorem C1_classify_first_match (url content : String) :
    (strStarts url "about:" = true →
      Classify url content = LoginState.Indeterminate)
  ∧ (strStarts url "about:" = false →
      (∃ k ∈ must_be_logged_keywords, strContains (fragmentOf url) k = true) →
      Classify url content = LoginState.LoggedIn)
  ∧ (strStarts url "about:" = false →
      (∀ k ∈ must_be_logged_keywords, strContains (fragmentOf url) k = false) →
      (∃ k ∈ must_not_logged_keywords, strContains (fragmentOf url) k = true) →
      Classify url content = LoginState.LoggedOut)
  ∧ (strStarts url "about:" = false →
      (∀ k ∈ must_be_logged_keywords, strContains (fragmentOf url) k = false) →
      (∀ k ∈ must_not_logged_keywords, strContains (fragmentOf url) k = false) →
      (Classify url content = LoginState.LoggedIn ↔
        (strContains content "工作台" = true ∧ strContains content "本地密码" = false))
      ∧ (Classify url content = LoginState.LoggedIn
          ∨ Classify url content = LoginState.LoggedOut)) := by
  refine ⟨?_, ?_, ?_, ?_⟩
  · intro h
    simp [Classify, is_logged, h]
  · intro h hex
    rcases hex with ⟨k, hk, hc⟩
    have hany : must_be_logged_keywords.any
        (fun k => strContains (fragmentOf url) k) = true :=
      any_eq_true_of_mem hk hc
    simp [Classify, is_logged, h, hany]
  · intro h hall hex
    rcases hex with ⟨k, hk, hc⟩
    have hno : must_be_logged_keywords.any
        (fun k => strContains (fragmentOf url) k) = false :=
      any_eq_false_of_all hall
    have hany : must_not_logged_keywords.any
        (fun k => strContains (fragmentOf url) k) = true :=
      any_eq_true_of_mem hk hc
    simp [Classify, is_logged, h, hno, hany]
  · intro h hall1 hall2
    have hno1 : must_be_logged_keywords.any
        (fun k => strContains (fragmentOf url) k) = false :=
      any_eq_false_of_all hall1
    have hno2 : must_not_logged_keywords.any
        (fun k => strContains (fragmentOf url) k) = false :=
      any_eq_false_of_all hall2
    cases hA : strContains content "工作台" <;>
      cases hB : strContains content "本地密码" <;>
        simp [Classify, is_logged, h, hno1, hno2, hA, hB]

/-- Witness for C1 at concrete inputs: one instance per branch of the
algorithm. -/
theorem C1_classify_first_match_witness :
    Classify "about:blank" "x" = LoginState.Indeterminate
  ∧ Classify "https://portal/x#/app_center" "本地密码" = LoginState.LoggedIn
  ∧ Classify "https://portal/x#/login" "工作台" = LoginState.LoggedOut
  ∧ Classify "https://portal/home" "内部 工作台 页面" = LoginState.LoggedIn :=
  ⟨(C1_classify_first_match "about:blank" "x").1 (by decide),
   (C1_classify_first_match "https://portal/x#/app_center" "本地密码").2.1
     (by decide) ⟨"app_center", by decide, by decide⟩,
   (C1_classify_first_match "https://portal/x#/login" "工作台").2.2.1
     (by decide) (by decide) ⟨"login", by decide, by decide⟩,
   ((C1_classify_first_match "https://portal/home" "内部 工作台 页面").2.2.2
     (by decide) (by decide) (by decide)).1.mpr (by decide)⟩

/-- C2, counterexample: on `about:blank` detection is Indeterminate
(`is_logged` returns `None`), yet `login` does perform credential entry and
submission — `if self.is_logged():` treats `None` as falsy, so the claim
that Login in an Indeterminate state performs no credential entry is false
on the code. -/
theorem C2_counterexample :
    is_logged "about:blank" "" = none
  ∧ LAct.enterCreds ∈ (login ⟨⟨"about:blank", ""⟩, ⟨"about:blank", ""⟩⟩).2
  ∧ LAct.clickLogin ∈ (login ⟨⟨"about:blank", ""⟩, ⟨"about:blank", ""⟩⟩).2 := by
  decide

/-- C2, amended: when detection returns Indeterminate, callers treat it the
same as logged out — `login` proceeds with credential entry and submission
(only a LoggedIn detection suppresses them), and the keepalive loop's
`if not at.is_logged():` likewise acts, navigating to the portal. -/
theorem C2_indeterminate_acts (env : LoginEnv) (cenv : CycleEnv)
    (h : is_logged env.pre.url env.pre.page = none)
    (hc1 : cenv.detectErr = none) (hc2 : cenv.detect = none) :
    LAct.enterCreds ∈ (login env).2
  ∧ LAct.clickLogin ∈ (login env).2
  ∧ MAct.openPortal ∈ (step1 cenv).1 := by
  refine ⟨?_, ?_, ?_⟩
  · unfold login
    rw [h]
    cases is_logged env.post.url env.post.page with
    | none => simp
    | some b => cases b <;> simp
  · unfold login
    rw [h]
    cases is_logged env.post.url env.post.page with
    | none => simp
    | some b => cases b <;> simp
  · unfold step1
    rw [hc1, hc2]
    simp only [if_neg (by decide : ¬ ((none : Option Bool) = some true))]
    cases cenv.navErr with
    | some e => simp
    | none =>
      cases cenv.loginErr with
      | some e => simp
      | none =>
        cases hl : login cenv.loginEnv with
        | mk r ltr =>
          by_cases hr : r = some true
          · simp [hr]
          · simp [hr]

/-- Witness for C2's amended theorem at a concrete Indeterminate state. -/
theorem C2_indeterminate_acts_witness :
    LAct.enterCreds ∈ (login ⟨⟨"about:blank", "p"⟩, ⟨"u", "q"⟩⟩).2
  ∧ LAct.clickLogin ∈ (login ⟨⟨"about:blank", "p"⟩, ⟨"u", "q"⟩⟩).2
  ∧ MAct.openPortal ∈
      (step1 ⟨none, none, none, none, ⟨⟨"", ""⟩, ⟨"", ""⟩⟩, none⟩).1 :=
  C2_indeterminate_acts ⟨⟨"about:blank", "p"⟩, ⟨"u", "q"⟩⟩
    ⟨none, none, none, none, ⟨⟨"", ""⟩, ⟨"", ""⟩⟩, none⟩
    (by decide) rfl rfl

/-- C3, counterexample: with detection LoggedOut both before and after
submission, `login` falls off the end of the function and returns Python
`None` — not an explicit failure value — so the claim that every such path
returns a definite failure result is false on the code. -/
theorem C3_counterexample :
    is_logged "https://portal/x#/login" "" = some false
  ∧ (login ⟨⟨"https://portal/x#/login", ""⟩, ⟨"https://portal/x#/login", ""⟩⟩).1
      = none
  ∧ (login ⟨⟨"https://portal/x#/login", ""⟩, ⟨"https://portal/x#/login", ""⟩⟩).1
      ≠ some false := by
  decide

/-- C3, amended: whenever the first detection is not LoggedIn and the
re-detection after submission is Indeterminate or LoggedOut, `login` falls
through and returns Python's implicit `None` — callers must compare the
result with `is True`; no path returns an explicit `False`. -/
theorem C3_failure_is_implicit_none (env : LoginEnv)
    (h1 : is_logged env.pre.url env.pre.page ≠ some true)
    (h2 : is_logged env.post.url env.post.page ≠ some true) :
    (login env).1 = none := by
  unfold login
  cases hpre : is_logged env.pre.url env.pre.page with
  | none =>
    cases hpost : is_logged env.post.url env.post.page with
    | none => simp
    | some b => cases b <;> simp_all
  | some b =>
    cases b
    · cases hpost : is_logged env.post.url env.post.page with
      | none => simp
      | some c => cases c <;> simp_all
    · exact absurd hpre h1

/-- Witness for C3's amended theorem at a concrete LoggedOut state. -/
theorem C3_failure_is_implicit_none_witness :
    (login ⟨⟨"https://portal/y#/captcha", ""⟩, ⟨"https://portal/y#/captcha", ""⟩⟩).1
      = none :=
  C3_failure_is_implicit_none
    ⟨⟨"https://portal/y#/captcha", ""⟩, ⟨"https://portal/y#/captcha", ""⟩⟩
    (by decide) (by decide)

/-- C4: `login` is idempotent when already logged in — a LoggedIn detection
short-circuits with success and no credential entry or submission, so a
first call that succeeds via submission followed by a second call on the
resulting state produces exactly one submit attempt in total. -/
theorem C4_login_idempotent (env env2 : LoginEnv)
    (h1 : is_logged env.pre.url env.pre.page ≠ some true)
    (h2 : is_logged env.post.url env.post.page = some true)
    (h3 : env2.pre = env.post) :
    (login env).1 = some true
  ∧ List.count LAct.clickLogin (login env).2 = 1
  ∧ login env2 = (some true, [])
  ∧ List.count LAct.clickLogin ((login env).2 ++ (login env2).2) = 1 := by
  have hfirst : login env =
      (some true, [LAct.enterCreds, LAct.clickLogin, LAct.updateStorage]) := by
    unfold login
    cases hpre : is_logged env.pre.url env.pre.page with
    | none => rw [h2]
    | some b =>
      cases b
      · rw [h2]
      · exact absurd hpre h1
  have hsecond : login env2 = (some true, []) := by
    unfold login
    rw [h3, h2]
  rw [hfirst, hsecond]
  refine ⟨rfl, by decide, rfl, by decide⟩

/-- Witness for C4 at concrete states: logged out before, logged in after
submission, second call starting from the post-submission state. -/
theorem C4_login_idempotent_witness :
    (login ⟨⟨"https://portal/z#/login", ""⟩, ⟨"https://portal/z#/app_center", ""⟩⟩).1
      = some true
  ∧ List.count LAct.clickLogin
      (login ⟨⟨"https://portal/z#/login", ""⟩, ⟨"https://portal/z#/app_center", ""⟩⟩).2 = 1
  ∧ login ⟨⟨"https://portal/z#/app_center", ""⟩, ⟨"about:blank", ""⟩⟩ = (some true, [])
  ∧ List.count LAct.clickLogin
      ((login ⟨⟨"https://portal/z#/login", ""⟩, ⟨"https://portal/z#/app_center", ""⟩⟩).2
        ++ (login ⟨⟨"https://portal/z#/app_center", ""⟩, ⟨"about:blank", ""⟩⟩).2) = 1 :=
  C4_login_idempotent
    ⟨⟨"https://portal/z#/login", ""⟩, ⟨"https://portal/z#/app_center", ""⟩⟩
    ⟨⟨"https://portal/z#/app_center", ""⟩, ⟨"about:blank", ""⟩⟩
    (by decide) (by decide) rfl

theorem decCookie_encCookie (c : Cookie) (r : List Tok) :
    decCookie (encCookie c ++ r) = some (c, r) := rfl

theorem decEntry_encEntry (kv : String × String) (r : List Tok) :
    decEntry (encEntry kv ++ r) = some (kv, r) := rfl

theorem decListWith_encListWith {α : Type} (enc : α → List Tok)
    (dec : List Tok → Option (α × List Tok))
    (h : ∀ a r, dec (enc a ++ r) = some (a, r)) (l : List α) (r : List Tok) :
    decListWith dec l.length (encListWith enc l ++ r) = some (l, r) := by
  induction l generalizing r with
  | nil => rfl
  | cons a t ih =>
    simp only [encListWith, List.length_cons, List.append_assoc, decListWith, h, ih]

theorem decodeArtifacts_encodeArtifacts (a : SessionArtifacts) :
    decodeArtifacts (encodeArtifacts a) = some a := by
  have h1 := decListWith_encListWith encCookie decCookie
    (fun c r => rfl) a.cookies
    (Tok.n a.localStorage.length :: encListWith encEntry a.localStorage)
  have h2 := decListWith_encListWith encEntry decEntry
    (fun kv r => rfl) a.localStorage []
  rw [List.append_nil] at h2
  simp only [encodeArtifacts, List.cons_append, decodeArtifacts, h1, h2]

/-- C5: saving session artifacts and loading them back reproduces them
exactly — the StorageCodec round-trip is lossless for every cookie field
and local-storage entry, including empty sets. -/
theorem C5_save_load_roundtrip (a : SessionArtifacts) :
    Load (Save a) = Except.ok a := by
  simp only [Load, Save, decodeArtifacts_encodeArtifacts]

/-- C6: with no artifact file at the storage path, `load_storage` raises
nothing and leaves the browser's cookies and local storage unchanged, and
`init` runs to completion: no propagated exception, the initialized flag is
set, and the browser store is untouched. -/
theorem C6_absent_file_is_no_session (env : InitEnv) (s : SessionState)
    (hf : env.file = FileContent.absent)
    (h1 : env.openPortalErr = none) (h2 : env.waitReadyErr = none)
    (h3 : s.initialized = false) :
    load_storage FileContent.absent s.browser = Except.ok s.browser
  ∧ (init env s).2.1 = none
  ∧ (init env s).1.initialized = true
  ∧ (init env s).1.browser = s.browser := by
  refine ⟨rfl, ?_⟩
  unfold init
  rw [h3, h1, h2, hf]
  simp [load_storage, load_storage_body]

/-- Witness for C6 at a concrete uninitialized state with no file. -/
theorem C6_absent_file_is_no_session_witness :
    load_storage FileContent.absent
      (⟨false, ⟨[], [("k", "v")]⟩⟩ : SessionState).browser
      = Except.ok (⟨false, ⟨[], [("k", "v")]⟩⟩ : SessionState).browser
  ∧ (init ⟨none, none, FileContent.absent⟩ ⟨false, ⟨[], [("k", "v")]⟩⟩).2.1 = none
  ∧ (init ⟨none, none, FileContent.absent⟩ ⟨false, ⟨[], [("k", "v")]⟩⟩).1.initialized
      = true
  ∧ (init ⟨none, none, FileContent.absent⟩ ⟨false, ⟨[], [("k", "v")]⟩⟩).1.browser
      = (⟨false, ⟨[], [("k", "v")]⟩⟩ : SessionState).browser :=
  C6_absent_file_is_no_session ⟨none, none, FileContent.absent⟩
    ⟨false, ⟨[], [("k", "v")]⟩⟩ rfl rfl rfl rfl

/-- C7, counterexample: with a present but undecodable artifact file,
`init` propagates `pickle.UnpicklingError` — only `FileNotFoundError` is
caught in `load_storage` — and the initialized flag stays false; since
`main` calls `at.init()` before entering its try/except loop, startup
aborts instead of proceeding with empty artifacts. -/
theorem C7_counterexample :
    (init ⟨none, none, FileContent.bytes [Tok.b true]⟩ ⟨false, ⟨[], []⟩⟩).2.1
      = some PyExc.unpicklingError
  ∧ (init ⟨none, none, FileContent.bytes [Tok.b true]⟩ ⟨false, ⟨[], []⟩⟩).1.initialized
      = false := by
  decide

/-- C7, amended: when the artifact file exists but its contents do not
decode, `load_storage` raises `UnpicklingError` (its handler catches only
`FileNotFoundError`), `init` propagates the error with the session left
uninitialized and the browser store untouched — startup does not proceed
with empty artifacts. -/
theorem C7_corrupt_file_propagates (env : InitEnv) (s : SessionState)
    (t : List Tok)
    (hf : env.file = FileContent.bytes t) (hd : decodeArtifacts t = none)
    (h1 : env.openPortalErr = none) (h2 : env.waitReadyErr = none)
    (h3 : s.initialized = false) :
    load_storage (FileContent.bytes t) s.browser
      = Except.error PyExc.unpicklingError
  ∧ (init env s).2.1 = some PyExc.unpicklingError
  ∧ (init env s).1 = s := by
  have hload : load_storage (FileContent.bytes t) s.browser
      = Except.error PyExc.unpicklingError := by
    simp only [load_storage, load_storage_body, hd]
  refine ⟨hload, ?_⟩
  unfold init
  rw [h3, h1, h2, hf, hload]
  simp

/-- Witness for C7's amended theorem at concrete corrupt bytes. -/
theorem C7_corrupt_file_propagates_witness :
    load_storage (FileContent.bytes [Tok.s "garbage"])
      (⟨false, ⟨[], []⟩⟩ : SessionState).browser
      = Except.error PyExc.unpicklingError
  ∧ (init ⟨none, none, FileContent.bytes [Tok.s "garbage"]⟩ ⟨false, ⟨[], []⟩⟩).2.1
      = some PyExc.unpicklingError
  ∧ (init ⟨none, none, FileContent.bytes [Tok.s "garbage"]⟩ ⟨false, ⟨[], []⟩⟩).1
      = ⟨false, ⟨[], []⟩⟩ :=
  C7_corrupt_file_propagates ⟨none, none, FileContent.bytes [Tok.s "garbage"]⟩
    ⟨false, ⟨[], []⟩⟩ [Tok.s "garbage"] rfl rfl rfl rfl rfl

/-- C10: `init` is atomic with respect to the initialized flag — the flag
becomes true exactly when every step completed without raising; on any
raise the state is unchanged (flag still false), and a subsequent `init`
call re-runs the sequence from `open_portal` instead of treating the
session as ready. -/
theorem C10_init_atomic (env : InitEnv) (s : SessionState)
    (h : s.initialized = false) :
    ((init env s).2.1 = none → (init env s).1.initialized = true)
  ∧ (∀ e, (init env s).2.1 = some e →
      (init env s).1 = s
      ∧ ∀ env2, ((init env2 (init env s).1).2.2).head? = some IAct.openPortal) := by
  have hrerun : ∀ env2 (s2 : SessionState), s2.initialized = false →
      ((init env2 s2).2.2).head? = some IAct.openPortal := by
    intro env2 s2 h2
    unfold init
    rw [h2]
    cases env2.openPortalErr with
    | some e => simp
    | none =>
      cases env2.waitReadyErr with
      | some e => simp
      | none =>
        cases load_storage env2.file s2.browser with
        | error e => simp
        | ok br => simp
  unfold init
  rw [h]
  cases env.openPortalErr with
  | some e =>
    refine ⟨fun hc => Option.noConfusion hc, ?_⟩
    intro e2 he2
    exact ⟨rfl, fun env2 => hrerun env2 s h⟩
  | none =>
    cases env.waitReadyErr with
    | some e =>
      refine ⟨fun hc => Option.noConfusion hc, ?_⟩
      intro e2 he2
      exact ⟨rfl, fun env2 => hrerun env2 s h⟩
    | none =>
      cases load_storage env.file s.browser with
      | error e =>
        refine ⟨fun hc => Option.noConfusion hc, ?_⟩
        intro e2 he2
        exact ⟨rfl, fun env2 => hrerun env2 s h⟩
      | ok br =>
        refine ⟨fun _ => rfl, ?_⟩
        intro e2 he2
        cases he2

/-- Witness for C10: a failing navigation leaves the flag false and the
next `init` call starts over with `open_portal`; a clean run sets it. -/
theorem C10_init_atomic_witness :
    ((init ⟨none, none, FileContent.absent⟩ ⟨false, ⟨[], []⟩⟩).2.1 = none →
      (init ⟨none, none, FileContent.absent⟩ ⟨false, ⟨[], []⟩⟩).1.initialized = true)
  ∧ ((init ⟨some PyExc.timeoutError, none, FileContent.absent⟩ ⟨false, ⟨[], []⟩⟩).1
      = ⟨false, ⟨[], []⟩⟩
     ∧ ((init ⟨none, none, FileContent.absent⟩
          (init ⟨some PyExc.timeoutError, none, FileContent.absent⟩
            ⟨false, ⟨[], []⟩⟩).1).2.2).head? = some IAct.openPortal) :=
  ⟨(C10_init_atomic ⟨none, none, FileContent.absent⟩ ⟨false, ⟨[], []⟩⟩ rfl).1,
   ⟨((C10_init_atomic ⟨some PyExc.timeoutError, none, FileContent.absent⟩
       ⟨false, ⟨[], []⟩⟩ rfl).2 PyExc.timeoutError rfl).1,
    ((C10_init_atomic ⟨some PyExc.timeoutError, none, FileContent.absent⟩
       ⟨false, ⟨[], []⟩⟩ rfl).2 PyExc.timeoutError rfl).2
      ⟨none, none, FileContent.absent⟩⟩⟩

theorem step1_no_systemExit (env : CycleEnv) (c : Nat) :
    (step1 env).2 ≠ Except.error (PyErr.systemExit c) := by
  unfold step1
  cases env.detectErr with
  | some e => simp
  | none =>
    by_cases hd : env.detect = some true
    · simp [hd]
    · simp only [if_neg hd]
      cases env.navErr with
      | some e => simp
      | none =>
        cases env.loginErr with
        | some e => simp
        | none =>
          cases login env.loginEnv with
          | mk r ltr =>
            by_cases hr : r = some true <;> simp [hr]

theorem step1_close_not_mem (env : CycleEnv) :
    MAct.close ∉ (step1 env).1 := by
  unfold step1
  cases env.detectErr with
  | some e => simp
  | none =>
    by_cases hd : env.detect = some true
    · simp [hd]
    · simp only [if_neg hd]
      cases env.navErr with
      | some e => simp
      | none =>
        cases env.loginErr with
        | some e => simp
        | none =>
          cases login env.loginEnv with
          | mk r ltr =>
            by_cases hr : r = some true <;> simp [hr, List.mem_map]

/-- C8: every ordinary exception raised inside one keepalive cycle is
caught at the loop boundary — the outcome is to continue with the next
cycle and the trace ends with the log and the `loadDelay` pause — and the
loop can exit only through the one-shot `exit(0)` path, never because of a
caught error. -/
theorem C8_loop_survives_errors (env : CycleEnv) (ka : Int) :
    (∀ e : PyExc, (cycle_body env ka).2 = Except.error (PyErr.exc e) →
      (cycle env ka).2 = CycleOutcome.continue_
      ∧ (cycle env ka).1 = (cycle_body env ka).1 ++ [MAct.logError, MAct.delayLoading])
  ∧ (∀ c : Nat, (cycle env ka).2 = CycleOutcome.exit_ c → c = 0 ∧ ka ≤ 0) := by
  constructor
  · intro e he
    unfold cycle
    cases hb : cycle_body env ka with
    | mk tr r =>
      rw [hb] at he
      simp only at he
      rw [he]
      simp
  · intro c hc
    unfold cycle at hc
    cases hb : cycle_body env ka with
    | mk tr r =>
      rw [hb] at hc
      cases r with
      | ok u => simp at hc
      | error pe =>
        cases pe with
        | exc e => simp at hc
        | systemExit c2 =>
          simp only at hc
          have hc2 : c2 = c := by
            cases hc
            rfl
          subst hc2
          have : (step23 env ka).2 = Except.error (PyErr.systemExit c2) := by
            unfold cycle_body at hb
            cases hs1 : step1 env with
            | mk tr1 r1 =>
              rw [hs1] at hb
              cases r1 with
              | error e1 =>
                simp only at hb
                cases hb
                have hne := step1_no_systemExit env c2
                rw [hs1] at hne
                exact absurd rfl hne
              | ok u1 =>
                simp only at hb
                cases hs23 : step23 env ka with
                | mk tr2 r2 =>
                  rw [hs23] at hb
                  cases hb
                  rfl
          unfold step23 at this
          by_cases hka : ka ≤ 0
          · rw [if_pos hka] at this
            simp only at this
            cases this
            exact ⟨rfl, hka⟩
          · rw [if_neg hka] at this
            cases h2 : env.navErr2 with
            | some e2 =>
              rw [h2] at this
              simp at this
            | none =>
              rw [h2] at this
              simp at this

/-- Witness for C8: a timeout during detection is caught with the loop
continuing, and an exiting cycle implies one-shot mode with status 0. -/
theorem C8_loop_survives_errors_witness :
    ((cycle ⟨some PyExc.timeoutError, none, none, none,
        ⟨⟨"", ""⟩, ⟨"", ""⟩⟩, none⟩ 200).2 = CycleOutcome.continue_
     ∧ (cycle ⟨some PyExc.timeoutError, none, none, none,
        ⟨⟨"", ""⟩, ⟨"", ""⟩⟩, none⟩ 200).1
       = (cycle_body ⟨some PyExc.timeoutError, none, none, none,
          ⟨⟨"", ""⟩, ⟨"", ""⟩⟩, none⟩ 200).1 ++ [MAct.logError, MAct.delayLoading])
  ∧ ((0 : Nat) = 0 ∧ (0 : Int) ≤ 0) :=
  ⟨(C8_loop_survives_errors ⟨some PyExc.timeoutError, none, none, none,
      ⟨⟨"", ""⟩, ⟨"", ""⟩⟩, none⟩ 200).1 PyExc.timeoutError rfl,
   (C8_loop_survives_errors ⟨none, some true, none, none,
      ⟨⟨"", ""⟩, ⟨"", ""⟩⟩, none⟩ 0).2 0 rfl⟩

/-- C9: with a keepalive interval of at most zero and the detect/login step
completing without an exception, the cycle closes the browser session
exactly once and terminates the process with success status 0 — the
`SystemExit` from `exit(0)` is not an `Exception`, so the loop's handler
does not swallow it. -/
theorem C9_oneshot_exits (env : CycleEnv) (ka : Int)
    (hka : ka ≤ 0) (h1 : (step1 env).2 = Except.ok ()) :
    (cycle env ka).2 = CycleOutcome.exit_ 0
  ∧ List.count MAct.close (cycle env ka).1 = 1 := by
  have hbody : cycle_body env ka = ((step1 env).1 ++ [MAct.close],
      Except.error (PyErr.systemExit 0)) := by
    unfold cycle_body
    cases hs1 : step1 env with
    | mk tr1 r1 =>
      rw [hs1] at h1
      simp only at h1
      subst h1
      simp only [step23, if_pos hka]
  have hcount : List.count MAct.close (step1 env).1 = 0 :=
    List.count_eq_zero.mpr (step1_close_not_mem env)
  unfold cycle
  rw [hbody]
  refine ⟨rfl, ?_⟩
  simp [List.count_append, hcount]

/-- Witness for C9 at a concrete already-logged-in cycle in one-shot
mode. -/
theorem C9_oneshot_exits_witness :
    (cycle ⟨none, some true, none, none, ⟨⟨"", ""⟩, ⟨"", ""⟩⟩, none⟩ 0).2
      = CycleOutcome.exit_ 0
  ∧ List.count MAct.close
      (cycle ⟨none, some true, none, none, ⟨⟨"", ""⟩, ⟨"", ""⟩⟩, none⟩ 0).1 = 1 :=
  C9_oneshot_exits ⟨none, some true, none, none, ⟨⟨"", ""⟩, ⟨"", ""⟩⟩, none⟩ 0
    (by decide) rfl
